import Mathlib

/-!
Shallow embedding of the ATS resume-scoring engine of
`backend/app/services/ats_service.py` (class `AtsService`), together with
proofs about it.

Conventions of the embedding:
* Python floats are modelled exactly: purely rational computations (keyword
  scores, format analysis, experience detection, confidence) live in `ℚ`,
  while the TF-IDF cosine similarity, which involves square roots and
  logarithms, lives in `ℝ`.
* Python strings are Lean `String`s; `len` is `String.length` (code points),
  `in` is substring containment, `str.split` and the regular expressions used
  by the source are modelled character-by-character below.  The regex classes
  `\w`, `\s`, `\d` are modelled over ASCII.
* Python's `round(x, 1)` is modelled as round-to-nearest tenth (`round1`).
* `list(set(xs))` is modelled as `List.dedup` (the properties proved below
  are insensitive to the iteration order Python would produce).
-/

/-- Python `str.lower()`, modelled character by character (ASCII case
folding).  Core's `String.toLower` is avoided because its byte-position
recursion does not reduce in the kernel. -/
def lowerStr (s : String) : String :=
  String.mk (s.data.map Char.toLower)

/-- ASCII whitespace, modelling the regex class `\s` and Python
`str.split()` separators: space, tab, newline, carriage return, vertical
tab, form feed. -/
def isSpaceChar (c : Char) : Bool :=
  c = ' ' || c = '\t' || c = '\n' || c = '\r' || c = '\x0b' || c = '\x0c'

/-- Word characters, modelling the regex class `\w`: letters, digits and
underscore. -/
def isWordCh (c : Char) : Bool :=
  c.isAlphanum || c = '_'

/-- Substring containment, modelling Python's `needle in hay`. -/
def strContains (hay needle : String) : Bool :=
  (List.range (hay.data.length + 1)).any (fun i => needle.data.isPrefixOf (hay.data.drop i))

/-- Splits a character list at every separator character selected by `p`,
keeping empty pieces, exactly like Python's `str.split(sep)` for a
one-character separator class. -/
def splitOnPred (p : Char → Bool) : List Char → List (List Char)
  | [] => [[]]
  | c :: cs =>
    if p c then [] :: splitOnPred p cs
    else
      match splitOnPred p cs with
      | [] => [[c]]
      | l :: ls => (c :: l) :: ls

theorem splitOnPred_ne_nil (p : Char → Bool) (cs : List Char) : splitOnPred p cs ≠ [] := by
  cases cs with
  | nil => simp [splitOnPred]
  | cons c cs =>
    by_cases h : p c
    · simp [splitOnPred, h]
    · simp only [splitOnPred, h, if_false]
      cases splitOnPred p cs <;> simp

/-- Python `text.split('\n')`. -/
def splitLines (cs : List Char) : List (List Char) :=
  splitOnPred (fun c => c = '\n') cs

theorem splitLines_ne_nil (cs : List Char) : splitLines cs ≠ [] :=
  splitOnPred_ne_nil _ cs

/-- Maximal runs of characters of the class `p`; with `p = isWordCh` this is
`re.findall(r'\b\w+\b', s)`, with `p = fun c => !isSpaceChar c` it is
Python's `str.split()`. -/
def runsOf (p : Char → Bool) (cs : List Char) : List (List Char) :=
  (splitOnPred (fun c => !p c) cs).filter (fun l => !l.isEmpty)

/-- Python `s.split()` (whitespace words, empties dropped). -/
def pySplitWS (s : String) : List String :=
  (runsOf (fun c => !isSpaceChar c) s.data).map (fun l => String.mk l)

/-- The `self.technical_skills` dictionary of `AtsService.__init__`,
in insertion order. -/
def technical_skills : List (String × List String) := [
  ("programming", ["python", "javascript", "java", "c++", "c#", "php", "ruby", "go", "rust",
    "swift", "kotlin", "scala", "typescript", "html", "css", "sql", "r", "matlab", "sas",
    "stata", "vba", "powershell", "bash"]),
  ("frameworks", ["react", "angular", "vue", "node.js", "express", "django", "flask", "spring",
    "laravel", "asp.net", "jquery", "bootstrap", "tailwind", "material-ui", "redux", "vuex",
    "next.js", "nuxt.js", "nestjs"]),
  ("web3", ["web3", "blockchain", "ethereum", "bitcoin", "solidity", "smart contract", "defi",
    "nft", "metamask", "hardhat", "truffle", "ganache", "ipfs", "polygon",
    "binance smart chain", "bsc", "layer 2", "rollup", "optimism", "arbitrum", "uniswap",
    "aave", "compound", "chainlink"]),
  ("databases", ["mysql", "postgresql", "mongodb", "redis", "elasticsearch", "oracle",
    "sql server", "sqlite", "dynamodb", "firebase", "cassandra", "neo4j", "influxdb",
    "couchdb", "graphql", "nosql"]),
  ("cloud", ["aws", "azure", "gcp", "heroku", "digitalocean", "linode", "vultr", "cloudflare",
    "ec2", "s3", "lambda", "rds", "dynamodb", "cloudfront", "route53", "cloud"]),
  ("devops", ["docker", "kubernetes", "jenkins", "gitlab ci", "github actions", "travis ci",
    "circleci", "terraform", "ansible", "chef", "puppet", "prometheus", "grafana",
    "elk stack", "ci/cd"]),
  ("data", ["pandas", "numpy", "scikit-learn", "tensorflow", "pytorch", "keras", "spark",
    "hadoop", "kafka", "airflow", "dbt", "snowflake", "databricks", "tableau", "power bi",
    "looker"])]

/-- The value lists of `technical_skills`, in dictionary order. -/
def technicalSkillLists : List (List String) :=
  technical_skills.map (fun p => p.2)

/-- The `self.soft_skills` list of `AtsService.__init__`. -/
def soft_skills : List String :=
  ["leadership", "communication", "teamwork", "problem solving", "critical thinking",
   "creativity", "adaptability", "time management", "organization", "attention to detail",
   "analytical skills", "project management", "collaboration", "mentoring",
   "presentation skills", "negotiation", "customer service", "sales", "marketing",
   "research", "writing", "public speaking", "agile", "fast-paced", "startup", "remote",
   "flexible"]

/-- The `self.industry_keywords` dictionary of `AtsService.__init__`. -/
def industry_keywords : List (String × List String) := [
  ("software development", ["agile", "scrum", "sdlc", "api", "microservices", "full stack",
    "frontend", "backend"]),
  ("data science", ["machine learning", "ai", "statistics", "data analysis",
    "predictive modeling", "nlp", "computer vision"]),
  ("finance", ["financial modeling", "risk management", "portfolio management", "trading",
    "compliance", "audit"]),
  ("marketing", ["digital marketing", "seo", "sem", "social media", "content marketing",
    "email marketing", "analytics"]),
  ("healthcare", ["patient care", "clinical", "medical", "healthcare", "pharmaceutical",
    "fda", "hipaa"]),
  ("education", ["curriculum", "teaching", "instructional design", "assessment", "student",
    "academic"])]

/-- The value lists of `industry_keywords`, in dictionary order. -/
def industryTermLists : List (List String) :=
  industry_keywords.map (fun p => p.2)

/-- The four extraction categories accepted by `extract_keywords`. -/
inductive KeywordCategory
  | required
  | preferred
  | industry
  | soft
deriving DecidableEq

/-- Python `re.sub(r'[^\w\s]', ' ', text.lower())`: every character that is
neither a word character nor whitespace is replaced by a space. -/
def pyNormalize (text : String) : String :=
  String.mk ((lowerStr text).data.map (fun c => if isWordCh c || isSpaceChar c then c else ' '))

/-- Model of `AtsService.extract_keywords_fallback`: a taxonomy term is found when its
lower-cased form is a literal substring of the normalised text.  The source
also computes a local `words` list that it never uses; it is omitted here.
Python's final `list(set(keywords))` is modelled as `List.dedup`. -/
def extract_keywords_fallback (text : String) (category : KeywordCategory) : List String :=
  let normalized := pyNormalize text
  let keywords : List String :=
    match category with
    | .required =>
        (technicalSkillLists.map (fun l =>
          l.filter (fun skill => strContains normalized (lowerStr skill)))).flatten
    | .preferred =>
        (technicalSkillLists.map (fun l =>
          l.filter (fun skill => strContains normalized (lowerStr skill)))).flatten ++
        soft_skills.filter (fun skill => strContains normalized (lowerStr skill))
    | .industry =>
        (industryTermLists.map (fun l =>
          l.filter (fun term => strContains normalized (lowerStr term)))).flatten
    | .soft =>
        soft_skills.filter (fun skill => strContains normalized (lowerStr skill))
  keywords.dedup

/-- The engine as analysed here runs in its fallback configuration
(`self.nlp = None`, i.e. spaCy unavailable), in which `extract_keywords`
dispatches to `extract_keywords_fallback`. -/
def extract_keywords (text : String) (category : KeywordCategory) : List String :=
  extract_keywords_fallback text category


/-- Word-ness of the character at index `i` of `cs`; positions outside the
string count as non-word, as in the regex word-boundary rule. -/
def wordAt (cs : List Char) (i : Nat) : Bool :=
  isWordCh (cs.getD i ' ')

/-- Regex `\b` at position `i` of `cs`: word-ness changes between the
previous character and the character at `i`. -/
def boundaryAt (cs : List Char) (i : Nat) : Bool :=
  (if i = 0 then false else wordAt cs (i - 1)) != wordAt cs i

/-- Model of `re.search(r'\b' + re.escape(needle) + r'\b', hay)` for a literal
needle: the needle occurs somewhere in `hay` with a word boundary on both
sides. -/
def wordOccurs (needle hay : List Char) : Bool :=
  (List.range (hay.length + 1)).any (fun i =>
    needle.isPrefixOf (hay.drop i) && boundaryAt hay i && boundaryAt hay (i + needle.length))

/-- Model of `AtsService._exact_word_match`.  The guard rejects single-character (and
empty) taxonomy terms; patterns 1 and 2 are the two `\b`-bounded regex
searches, pattern 3 is exact equality, pattern 4 is the compound-term test
over the whitespace-split parts of the term (Python's negative length
difference compares like the truncated `Nat` subtraction used here, since a
substring is never longer than its part). -/
def _exact_word_match (term skill : String) : Bool :=
  let term_lower := lowerStr term
  let skill_lower := lowerStr skill
  if skill_lower.length ≤ 1 then false
  else if wordOccurs skill_lower.data term_lower.data then true
  else if wordOccurs term_lower.data skill_lower.data then true
  else if term_lower = skill_lower then true
  else if strContains term_lower skill_lower && decide (2 < skill_lower.length) then
    (pySplitWS term_lower).any (fun part =>
      strContains part skill_lower && decide (part.length - skill_lower.length ≤ 2))
  else false

/-- The `category == 'preferred'` filter stage of
`AtsService.extract_keywords_spacy`: for each candidate term, the first
word-boundary-matching skill of each technical skill list and the first
matching soft skill are emitted, canonicalised by lower-casing; the final
`sorted(list(set(...)))` is modelled as `List.dedup` (ordering is
irrelevant to the membership property proved about it).  The candidate pool
`all_terms` is produced by the spaCy linguistic pipeline, which is external
to the repository, so the property below is proved for every possible
pool. -/
def spacy_preferred_filter (all_terms : List String) : List String :=
  ((all_terms.map (fun term =>
      (technicalSkillLists.filterMap (fun l =>
        (l.find? (fun skill => _exact_word_match term skill)).map lowerStr)) ++
      ((soft_skills.find? (fun skill => _exact_word_match term skill)).map
        lowerStr).toList)).flatten).dedup

/-- Numeric value of a digit run, modelling `int(match.group(1))`. -/
def natOfDigits (ds : List Char) : Nat :=
  ds.foldl (fun a c => a * 10 + (c.toNat - '0'.toNat)) 0

/-- Skips the regex `\s*`. -/
def dropWS (cs : List Char) : List Char :=
  cs.dropWhile isSpaceChar

/-- Consumes the literal `lit` from the head of `cs`. -/
def afterLit : List Char → List Char → Option (List Char)
  | [], cs => some cs
  | _ :: _, [] => none
  | l :: ls, c :: cs => if c = l then afterLit ls cs else none

/-- Matches `(?:experience|exp)` at the head of `cs`. -/
def expWordAt (cs : List Char) : Bool :=
  (afterLit "experience".data cs).isSome || (afterLit "exp".data cs).isSome

/-- Matches `(?:of\s*)?(?:experience|exp)` at the head of `cs`. -/
def ofExpAt (cs : List Char) : Bool :=
  (match afterLit "of".data cs with
   | some rest => expWordAt (dropWS rest)
   | none => false) || expWordAt cs

/-- Matches `(?:years?|yrs?)\s*(?:of\s*)?(?:experience|exp)` at the head of
`cs` (all four forms of the year word, each followed by a successful
continuation, exactly as the backtracking regex engine would). -/
def yearsTailAt (cs : List Char) : Bool :=
  ["years", "year", "yrs", "yr"].any (fun w =>
    match afterLit w.data cs with
    | some rest => ofExpAt (dropWS rest)
    | none => false)

/-- Attempts the pattern `(\d+)\s*(?:years?|yrs?)\s*(?:of\s*)?(?:experience|exp)`
at the head of `cs`, returning the value of the digit group.  The digit run
is taken maximally; a shorter run cannot make the rest of the pattern
match, because the character after a shorter run is a digit, which neither
`\s*` nor the year word can consume. -/
def yearsMatchAt (cs : List Char) : Option Nat :=
  let digits := cs.takeWhile Char.isDigit
  if digits.isEmpty then none
  else if yearsTailAt (dropWS (cs.dropWhile Char.isDigit)) then some (natOfDigits digits)
  else none

/-- Model of `re.search(years_pattern, text)`: the leftmost position at which the
years pattern matches, with the digit group already converted. -/
def searchYears : List Char → Option Nat
  | [] => none
  | c :: cs =>
    match yearsMatchAt (c :: cs) with
    | some n => some n
    | none => searchYears cs

/-- The seniority-keyword block at the end of
`AtsService.detect_experience_level`, executed whenever the years regex
does not produce a score. -/
def experience_keyword_fallback (text : String) : ℚ :=
  if ["senior", "lead", "manager", "director"].any (fun w => strContains text w) then 80
  else if ["mid-level", "intermediate", "experienced"].any (fun w => strContains text w) then 60
  else if ["junior", "entry-level", "graduate"].any (fun w => strContains text w) then 30
  else 25

/-- Model of `AtsService.detect_experience_level`.  Note that when the regex matches
with a digit group of `0`, none of the threshold branches returns, and the
source falls through to the seniority-keyword block. -/
def detect_experience_level (resume_text : String) : ℚ :=
  let text := lowerStr resume_text
  match searchYears text.data with
  | some years =>
    if 10 ≤ years then 100
    else if 7 ≤ years then 85
    else if 5 ≤ years then 70
    else if 3 ≤ years then 55
    else if 1 ≤ years then 40
    else experience_keyword_fallback text
  | none => experience_keyword_fallback text


/-- Token set used by the Jaccard fallback:
`set(re.findall(r'\b\w+\b', text.lower()))`. -/
def jaccardWords (text : String) : Finset String :=
  ((runsOf isWordCh (lowerStr text).data).map (fun l => String.mk l)).toFinset

/-- The word-overlap fallback inside
`AtsService.calculate_semantic_similarity` (the `except` branch). -/
def jaccardSim (text1 text2 : String) : ℚ :=
  let words1 := jaccardWords text1
  let words2 := jaccardWords text2
  if words1 = ∅ ∨ words2 = ∅ then 0
  else if words1 ∪ words2 = ∅ then 0
  else ((words1 ∩ words2).card : ℚ) / ((words1 ∪ words2).card : ℚ)

/-- A fragment of scikit-learn's built-in `english` stop-word list, used by
`TfidfVectorizer(stop_words='english')`.  The full list is data of the
external library, not of this repository; every property proved below
holds for arbitrary contents of this list. -/
def englishStopWords : List String :=
  ["a", "about", "above", "after", "again", "against", "all", "almost", "alone", "along",
   "already", "also", "although", "always", "am", "among", "an", "and", "any", "are",
   "around", "as", "at", "be", "because", "been", "before", "being", "below", "between",
   "both", "but", "by", "can", "cannot", "could", "did", "do", "does", "down", "during",
   "each", "either", "enough", "etc", "ever", "every", "few", "for", "from", "further",
   "had", "has", "have", "he", "her", "here", "hers", "him", "his", "how", "however",
   "i", "if", "in", "into", "is", "it", "its", "itself", "just", "least", "less", "may",
   "me", "might", "more", "most", "much", "must", "my", "myself", "neither", "never",
   "no", "nor", "not", "now", "of", "off", "often", "on", "once", "only", "or", "other",
   "our", "ours", "out", "over", "own", "per", "perhaps", "rather", "same", "she",
   "should", "since", "so", "some", "somehow", "such", "than", "that", "the", "their",
   "theirs", "them", "then", "there", "these", "they", "this", "those", "through", "to",
   "too", "toward", "under", "until", "up", "upon", "us", "very", "was", "we", "well",
   "were", "what", "when", "where", "whether", "which", "while", "who", "whom", "why",
   "will", "with", "within", "without", "would", "yet", "you", "your", "yours"]

/-- scikit-learn's default token pattern `(?u)\b\w\w+\b` applied to the
lower-cased document: maximal word-character runs of length at least 2. -/
def sklearnTokens (s : String) : List String :=
  ((runsOf isWordCh (lowerStr s).data).filter (fun l => decide (2 ≤ l.length))).map
    (fun l => String.mk l)

/-- Bigrams of a token sequence, joined by one space, as produced by
scikit-learn for `ngram_range=(1, 2)`. -/
def bigramsOf : List String → List String
  | a :: b :: rest => (a ++ " " ++ b) :: bigramsOf (b :: rest)
  | _ => []

/-- Feature sequence of one document: stop-word-filtered unigrams followed
by the bigrams formed from the surviving tokens. -/
def docTerms (s : String) : List String :=
  let toks := (sklearnTokens s).filter (fun w => !englishStopWords.contains w)
  toks ++ bigramsOf toks

/-- Smoothed TF-IDF weight (scikit-learn defaults `smooth_idf=True`,
`sublinear_tf=False`) of the term `t` in the document with feature sequence
`A`, for the two-document corpus `{A, B}`:
`count(t, A) * (log((1 + 2) / (1 + df(t))) + 1)`. -/
noncomputable def tfidf_weight (A B : List String) (t : String) : ℝ :=
  (A.count t : ℝ) *
    (Real.log (3 / (1 + ((if t ∈ A then (1 : ℝ) else 0) + (if t ∈ B then (1 : ℝ) else 0)))) + 1)

/-- Dot product of the two documents' TF-IDF vectors over the joint
vocabulary. -/
noncomputable def tfidf_dot (A B : List String) : ℝ :=
  ∑ t ∈ (A ++ B).toFinset, tfidf_weight A B t * tfidf_weight B A t

/-- Euclidean norm of the TF-IDF vector of the document `A`. -/
noncomputable def tfidf_norm (A B : List String) : ℝ :=
  Real.sqrt (∑ t ∈ (A ++ B).toFinset, (tfidf_weight A B t) ^ 2)

/-- Cosine similarity of the two TF-IDF vectors, i.e.
`cosine_similarity(tfidf_matrix[0:1], tfidf_matrix[1:2])[0][0]`.  A vector
of norm zero yields similarity `0`, matching scikit-learn's handling of
zero rows during normalisation. -/
noncomputable def tfidf_cosine (A B : List String) : ℝ :=
  if tfidf_norm A B = 0 ∨ tfidf_norm B A = 0 then 0
  else tfidf_dot A B / (tfidf_norm A B * tfidf_norm B A)

/-- Model of `AtsService.calculate_semantic_similarity`: empty inputs short-circuit
to `0.0` before any vectorization; fitting the vectorizer raises (and the
`except` branch computes the Jaccard fallback) exactly when neither
document yields a feature, i.e. the vocabulary is empty; otherwise the
TF-IDF cosine similarity is returned. -/
noncomputable def calculate_semantic_similarity (text1 text2 : String) : ℝ :=
  if text1 = "" ∨ text2 = "" then 0
  else if docTerms text1 = [] ∧ docTerms text2 = [] then (jaccardSim text1 text2 : ℝ)
  else tfidf_cosine (docTerms text1) (docTerms text2)

/-- Character class `[A-Z0-9._%+-]` under `re.I`. -/
def emailLocalChar (c : Char) : Bool :=
  c.isAlphanum || c = '.' || c = '_' || c = '%' || c = '+' || c = '-'

/-- Character class `[A-Z0-9.-]` under `re.I`. -/
def emailDomainChar (c : Char) : Bool :=
  c.isAlphanum || c = '.' || c = '-'

/-- Model of `re.search(r'\b[A-Z0-9._%+-]+@[A-Z0-9.-]+\.[A-Z]\x7b2,\x7d\b', s, re.I)`:
there exist a boundary position `i`, an `@` at `j` preceded by a non-empty
run of local-part characters, a dot at `k` preceded by a non-empty run of
domain characters, and at least two letters ending at a boundary `m`.  The
nested bounded searches model the backtracking regex engine's existential
choice of the split points. -/
def hasEmail (s : String) : Bool :=
  let cs := s.data
  let n := cs.length
  (List.range (n + 1)).any (fun i =>
    boundaryAt cs i &&
    (List.range (n + 1)).any (fun j =>
      decide (i < j) && cs.getD j ' ' = '@' &&
      ((cs.drop i).take (j - i)).all emailLocalChar &&
      (List.range (n + 1)).any (fun k =>
        decide (j + 1 < k) && cs.getD k ' ' = '.' &&
        ((cs.drop (j + 1)).take (k - (j + 1))).all emailDomainChar &&
        (List.range (n + 1)).any (fun m =>
          decide (k + 3 ≤ m) && decide (m ≤ n) &&
          ((cs.drop (k + 1)).take (m - (k + 1))).all Char.isAlpha &&
          boundaryAt cs m))))

/-- The `format_analysis` record produced by `AtsService.analyze_format`. -/
structure FormatAnalysis where
  structure_score : ℚ
  readability_score : ℚ
  keyword_density : ℚ
  section_completeness : ℚ

/-- Model of `AtsService.analyze_format`.  Note `avg_line_length` averages over all
lines produced by `split('\n')`, empty lines included; `lines` is never the
empty list (Python's `split` always returns at least one piece), so the
`if lines else 0` guard of the source is dead code, though it is modelled
here anyway. -/
def analyze_format (resume_text : String) : FormatAnalysis :=
  let lines := splitLines resume_text.data
  let lowered := lowerStr resume_text
  let sections : List String := ["experience", "education", "skills", "summary", "objective"]
  let structure_score : ℚ := 20 * (sections.countP (fun s => strContains lowered s) : ℚ)
  let avg_line_length : ℚ :=
    if lines.isEmpty then 0 else ((lines.map List.length).sum : ℚ) / (lines.length : ℚ)
  let readability_score : ℚ :=
    if 80 < avg_line_length then 60 else if 60 < avg_line_length then 80 else 100
  let words := (pySplitWS resume_text).length
  let technical_words :=
    (technicalSkillLists.map (fun l =>
      l.countP (fun skill => strContains lowered (lowerStr skill)))).sum
  let keyword_density : ℚ :=
    if 0 < words then min 100 (((technical_words : ℚ) / (words : ℚ)) * 1000) else 0
  let has_experience := ["experience", "work", "employment"].any (fun w => strContains lowered w)
  let has_education :=
    ["education", "degree", "university", "college"].any (fun w => strContains lowered w)
  let has_skills := ["skills", "technologies", "tools"].any (fun w => strContains lowered w)
  let has_contact := hasEmail resume_text
  let section_completeness : ℚ :=
    ((if has_experience then 1 else 0) + (if has_education then 1 else 0) +
      (if has_skills then 1 else 0) + (if has_contact then 1 else 0) : ℚ) * 25
  { structure_score := structure_score, readability_score := readability_score,
    keyword_density := keyword_density, section_completeness := section_completeness }

/-- One `{matched, missing, score}` record of the keyword analysis. -/
structure KeywordMatchResult where
  matched : List String
  missing : List String
  score : ℚ

/-- The `keyword_analysis` dictionary of `AtsService.compute_ats_score`. -/
structure KeywordAnalysis where
  required : KeywordMatchResult
  preferred : KeywordMatchResult
  industry : KeywordMatchResult
  soft_skills : KeywordMatchResult

/-- The `semantic_analysis` dictionary of `AtsService.compute_ats_score`. -/
structure SemanticAnalysis where
  job_title_match : ℝ
  industry_alignment : ℝ
  experience_level : ℝ
  responsibility_match : ℝ

/-- The `experience_analysis` dictionary of `AtsService.compute_ats_score`. -/
structure ExperienceAnalysis where
  years_of_experience : ℝ
  relevant_experience : ℝ
  project_match : ℝ
  achievement_alignment : ℝ

/-- The tiered `improvements` dictionary returned by
`AtsService.generate_suggestions`. -/
structure SuggestionTiers where
  critical : List String
  important : List String
  optional : List String

/-- Model of `AtsService.generate_suggestions`.  The `resume_text` and
`job_description` parameters are accepted and ignored, as in the source;
each rule fires independently, and the flat list is the concatenation
`critical + important + optional`. -/
noncomputable def generate_suggestions (resume_text job_description : String)
    (keyword_analysis : KeywordAnalysis) (semantic_analysis : SemanticAnalysis)
    (format_analysis : FormatAnalysis) : List String × SuggestionTiers :=
  let critical : List String :=
    (if keyword_analysis.required.missing ≠ [] then
      ["Add missing required skills: " ++
        String.intercalate ", " (keyword_analysis.required.missing.take 5)]
     else []) ++
    (if semantic_analysis.job_title_match < 50 then
      ["Update job titles to better match the target position"] else []) ++
    (if format_analysis.section_completeness < 75 then
      ["Add missing resume sections (Experience, Education, Skills, Contact)"] else [])
  let important : List String :=
    (if keyword_analysis.preferred.missing ≠ [] then
      ["Consider adding preferred skills: " ++
        String.intercalate ", " (keyword_analysis.preferred.missing.take 3)]
     else []) ++
    (if format_analysis.keyword_density < 2 then
      ["Increase keyword density by adding more relevant technical terms"] else []) ++
    (if semantic_analysis.experience_level < 50 then
      ["Highlight relevant experience and quantify achievements"] else [])
  let optional : List String :=
    (if keyword_analysis.soft_skills.missing ≠ [] then
      ["Add soft skills: " ++
        String.intercalate ", " (keyword_analysis.soft_skills.missing.take 3)]
     else []) ++
    (if format_analysis.readability_score < 80 then
      ["Improve readability by using shorter, more concise bullet points"] else [])
  (critical ++ important ++ optional,
   { critical := critical, important := important, optional := optional })

/-- The output record of `AtsService.compute_ats_score`
(dataclass `AtsScoreResult`). -/
structure AtsScoreResult where
  overall_score : ℝ
  keyword_score : ℚ
  semantic_score : ℝ
  format_score : ℚ
  experience_score : ℝ
  keyword_analysis : KeywordAnalysis
  semantic_analysis : SemanticAnalysis
  format_analysis : FormatAnalysis
  experience_analysis : ExperienceAnalysis
  suggestions : List String
  improvements : SuggestionTiers
  confidence : ℚ

/-- One category record of the keyword analysis: membership of each
extracted requirement keyword is tested by case-insensitive substring
containment in the resume; the source first stores `score: 0.0` and then
overwrites it, so only the final score is modelled. -/
def keyword_match_result (resume_text : String) (ks : List String) : KeywordMatchResult :=
  let matched := ks.filter (fun k => strContains (lowerStr resume_text) (lowerStr k))
  let missing := ks.filter (fun k => !strContains (lowerStr resume_text) (lowerStr k))
  { matched := matched, missing := missing,
    score := if ks = [] then 100 else ((matched.length : ℚ) / (ks.length : ℚ)) * 100 }

/-- The full keyword analysis: all four categories are extracted from the
job description and matched against the resume. -/
def keywordAnalysisOf (resume_text job_description : String) : KeywordAnalysis :=
  { required := keyword_match_result resume_text (extract_keywords job_description .required),
    preferred := keyword_match_result resume_text (extract_keywords job_description .preferred),
    industry := keyword_match_result resume_text (extract_keywords job_description .industry),
    soft_skills := keyword_match_result resume_text (extract_keywords job_description .soft) }

/-- The `semantic_analysis` dictionary of `AtsService.compute_ats_score`. -/
noncomputable def semanticAnalysisOf (resume_text job_description job_title : String) :
    SemanticAnalysis :=
  { job_title_match := calculate_semantic_similarity resume_text job_title * 100,
    industry_alignment := ((keywordAnalysisOf resume_text job_description).industry.score : ℝ),
    experience_level := (detect_experience_level resume_text : ℝ),
    responsibility_match := calculate_semantic_similarity resume_text job_description * 100 }

/-- The `experience_analysis` dictionary: `relevant_experience` and
`achievement_alignment` copy `responsibility_match`, and `project_match`
recomputes the same similarity expression. -/
noncomputable def experienceAnalysisOf (resume_text job_description : String) :
    ExperienceAnalysis :=
  { years_of_experience := (detect_experience_level resume_text : ℝ),
    relevant_experience := calculate_semantic_similarity resume_text job_description * 100,
    project_match := calculate_semantic_similarity resume_text job_description * 100,
    achievement_alignment := calculate_semantic_similarity resume_text job_description * 100 }

/-- Unrounded `keyword_score` of `AtsService.compute_ats_score`. -/
def keyword_score_raw (resume_text job_description : String) : ℚ :=
  let ka := keywordAnalysisOf resume_text job_description
  ka.required.score * 0.5 + ka.preferred.score * 0.3 + ka.industry.score * 0.2

/-- Unrounded `semantic_score` of `AtsService.compute_ats_score`. -/
noncomputable def semantic_score_raw (resume_text job_description job_title : String) : ℝ :=
  let sa := semanticAnalysisOf resume_text job_description job_title
  sa.job_title_match * 0.3 + sa.industry_alignment * 0.3 + sa.experience_level * 0.2 +
    sa.responsibility_match * 0.2

/-- Unrounded `format_score` of `AtsService.compute_ats_score`. -/
def format_score_raw (resume_text : String) : ℚ :=
  let fa := analyze_format resume_text
  fa.structure_score * 0.3 + fa.readability_score * 0.3 + fa.keyword_density * 0.2 +
    fa.section_completeness * 0.2

/-- Unrounded `experience_score` of `AtsService.compute_ats_score`. -/
noncomputable def experience_score_raw (resume_text job_description : String) : ℝ :=
  let ea := experienceAnalysisOf resume_text job_description
  ea.relevant_experience * 0.4 + ea.project_match * 0.3 + ea.achievement_alignment * 0.3

/-- Unrounded `overall_score` of `AtsService.compute_ats_score`. -/
noncomputable def overall_score_raw (resume_text job_description job_title : String) : ℝ :=
  (keyword_score_raw resume_text job_description : ℝ) * 0.35 +
    semantic_score_raw resume_text job_description job_title * 0.25 +
    (format_score_raw resume_text : ℝ) * 0.20 +
    experience_score_raw resume_text job_description * 0.20

/-- Unrounded `confidence` of `AtsService.compute_ats_score`. -/
def confidence_raw (resume_text job_description : String) : ℚ :=
  let ka := keywordAnalysisOf resume_text job_description
  min 100 ((resume_text.length : ℚ) / 1000 * 30 + (job_description.length : ℚ) / 1000 * 30 +
    ((ka.required.matched.length : ℚ) + (ka.preferred.matched.length : ℚ)) * 2)

/-- Python's `round(x, 1)`: round to the nearest tenth (no claim proved
here depends on tie-breaking, so round-half-up stands in for Python's
round-half-even). -/
def round1 {α : Type} [LinearOrderedField α] [FloorRing α] (x : α) : α :=
  ((round (10 * x) : ℤ) : α) / 10

/-- Model of `AtsService.compute_ats_score`, assembled from the component functions
above exactly as in the source. -/
noncomputable def compute_ats_score (resume_text job_description : String)
    (job_title : String := "") : AtsScoreResult :=
  { overall_score := round1 (overall_score_raw resume_text job_description job_title),
    keyword_score := round1 (keyword_score_raw resume_text job_description),
    semantic_score := round1 (semantic_score_raw resume_text job_description job_title),
    format_score := round1 (format_score_raw resume_text),
    experience_score := round1 (experience_score_raw resume_text job_description),
    keyword_analysis := keywordAnalysisOf resume_text job_description,
    semantic_analysis := semanticAnalysisOf resume_text job_description job_title,
    format_analysis := analyze_format resume_text,
    experience_analysis := experienceAnalysisOf resume_text job_description,
    suggestions := (generate_suggestions resume_text job_description
      (keywordAnalysisOf resume_text job_description)
      (semanticAnalysisOf resume_text job_description job_title)
      (analyze_format resume_text)).1,
    improvements := (generate_suggestions resume_text job_description
      (keywordAnalysisOf resume_text job_description)
      (semanticAnalysisOf resume_text job_description job_title)
      (analyze_format resume_text)).2,
    confidence := round1 (confidence_raw resume_text job_description) }

theorem experience_keyword_fallback_cases (s : String) :
    experience_keyword_fallback s = 80 ∨ experience_keyword_fallback s = 60 ∨
    experience_keyword_fallback s = 30 ∨ experience_keyword_fallback s = 25 := by
  unfold experience_keyword_fallback
  split_ifs <;> simp

theorem detect_experience_level_cases (t : String) :
    detect_experience_level t = 100 ∨ detect_experience_level t = 85 ∨
    detect_experience_level t = 70 ∨ detect_experience_level t = 55 ∨
    detect_experience_level t = 40 ∨ detect_experience_level t = 80 ∨
    detect_experience_level t = 60 ∨ detect_experience_level t = 30 ∨
    detect_experience_level t = 25 := by
  have hfb := experience_keyword_fallback_cases (lowerStr t)
  unfold detect_experience_level
  rcases h : searchYears (lowerStr t).data with _ | n
  · simp only [h]
    rcases hfb with h1 | h1 | h1 | h1 <;> rw [h1] <;> norm_num
  · simp only [h]
    split_ifs
    · norm_num
    · norm_num
    · norm_num
    · norm_num
    · norm_num
    · rcases hfb with h1 | h1 | h1 | h1 <;> rw [h1] <;> norm_num

theorem detect_experience_level_bounds (t : String) :
    25 ≤ detect_experience_level t ∧ detect_experience_level t ≤ 100 := by
  rcases detect_experience_level_cases t with h | h | h | h | h | h | h | h | h <;>
    rw [h] <;> norm_num

/-- C10: `detect_experience_level` only takes values in
`{25, 30, 40, 55, 60, 70, 80, 85, 100}` — in particular it is never below
`25`, even for the empty string — and a years match with digit group `0`
does not produce a threshold score but falls through to the
seniority-keyword block. -/
theorem detect_experience_level_range (t : String) :
    detect_experience_level t ∈ ({25, 30, 40, 55, 60, 70, 80, 85, 100} : Set ℚ) ∧
    25 ≤ detect_experience_level t ∧
    (searchYears (lowerStr t).data = some 0 →
      detect_experience_level t = experience_keyword_fallback (lowerStr t)) := by
  refine ⟨?_, (detect_experience_level_bounds t).1, ?_⟩
  · rcases detect_experience_level_cases t with h | h | h | h | h | h | h | h | h <;>
      rw [h] <;> simp [Set.mem_insert_iff]
  · intro h0
    unfold detect_experience_level
    simp only [h0]
    norm_num

theorem detect_experience_level_range_witness :
    searchYears (lowerStr "0 years of experience").data = some 0 ∧
    detect_experience_level "0 years of experience" =
      experience_keyword_fallback (lowerStr "0 years of experience") :=
  ⟨by decide, (detect_experience_level_range "0 years of experience").2.2 (by decide)⟩

/-- C6 (amended): when the years regex first matches with digit group
`n ≥ 1`, `detect_experience_level` maps `n` through the thresholds
`≥10→100, ≥7→85, ≥5→70, ≥3→55, ≥1→40`; when no years phrase is present it
returns 80 for senior/lead/manager/director wording, then 60 for
mid-level/intermediate/experienced, then 30 for junior/entry-level/graduate,
and 25.0 otherwise; and in particular the resume consisting exactly of
"5 years of experience" (whose first match has `n = 5`) yields
`years_of_experience = 70.0`.  (The claim's broader "a resume containing
'5 years of experience'" fails; see the counterexample.) -/
theorem detect_experience_level_spec (t jd jt : String) :
    (∀ n : Nat, searchYears (lowerStr t).data = some n → 1 ≤ n →
      detect_experience_level t =
        if 10 ≤ n then 100 else if 7 ≤ n then 85 else if 5 ≤ n then 70
        else if 3 ≤ n then 55 else (40 : ℚ)) ∧
    (searchYears (lowerStr t).data = none →
      detect_experience_level t =
        if ["senior", "lead", "manager", "director"].any
            (fun w => strContains (lowerStr t) w) then 80
        else if ["mid-level", "intermediate", "experienced"].any
            (fun w => strContains (lowerStr t) w) then 60
        else if ["junior", "entry-level", "graduate"].any
            (fun w => strContains (lowerStr t) w) then 30
        else (25 : ℚ)) ∧
    (compute_ats_score "5 years of experience" jd jt).experience_analysis.years_of_experience
      = 70 := by
  refine ⟨?_, ?_, ?_⟩
  · intro n hn h1
    unfold detect_experience_level
    simp only [hn]
    split_ifs <;> rfl
  · intro hn
    unfold detect_experience_level experience_keyword_fallback
    simp only [hn]
  · show ((detect_experience_level "5 years of experience" : ℚ) : ℝ) = 70
    rw [show detect_experience_level "5 years of experience" = 70 from by decide]
    norm_num

theorem detect_experience_level_spec_witness :
    detect_experience_level "8 years of experience" = 85 ∧
    detect_experience_level "senior developer" = 80 := by
  constructor
  · have h := (detect_experience_level_spec "8 years of experience" "" "").1 8
      (by decide) (by norm_num)
    rw [h]; norm_num
  · have h := (detect_experience_level_spec "senior developer" "" "").2.1 (by decide)
    rw [h]; decide

/-- C6 fails as stated: the resume "15 years of experience" contains the
phrase "5 years of experience" (as a substring, hence contains a
case-insensitive match of the years pattern with group 5 at a later
position), yet the first regex match reads 15 years, so
`years_of_experience` is 100, not 70. -/
theorem years_phrase_containment_cex :
    strContains "15 years of experience" "5 years of experience" = true ∧
    (compute_ats_score "15 years of experience" "" "").experience_analysis.years_of_experience
      ≠ 70 := by
  refine ⟨by decide, ?_⟩
  show ((detect_experience_level "15 years of experience" : ℚ) : ℝ) ≠ 70
  rw [show detect_experience_level "15 years of experience" = 100 from by decide]
  norm_num

theorem keyword_match_result_score_eq (r : String) (ks : List String) :
    (keyword_match_result r ks).score =
      if ks = [] then 100
      else 100 * ((ks.filter (fun k => strContains (lowerStr r) (lowerStr k))).length : ℚ) /
        (ks.length : ℚ) := by
  unfold keyword_match_result
  split_ifs with h
  · rfl
  · ring

theorem keyword_match_result_score_bounds (r : String) (ks : List String) :
    0 ≤ (keyword_match_result r ks).score ∧ (keyword_match_result r ks).score ≤ 100 := by
  rw [keyword_match_result_score_eq]
  split_ifs with h
  · norm_num
  · have hlen : 0 < (ks.length : ℚ) := by
      have : ks ≠ [] := h
      have : 0 < ks.length := List.length_pos.mpr this
      exact_mod_cast this
    constructor
    · positivity
    · rw [div_le_iff₀ hlen]
      have hfle : ((ks.filter (fun k => strContains (lowerStr r) (lowerStr k))).length : ℚ) ≤
          (ks.length : ℚ) := by
        exact_mod_cast List.length_filter_le _ ks
      nlinarith

/-- Selects one category record of a keyword analysis. -/
def categoryResult (ka : KeywordAnalysis) : KeywordCategory → KeywordMatchResult
  | .required => ka.required
  | .preferred => ka.preferred
  | .industry => ka.industry
  | .soft => ka.soft_skills

theorem categoryResult_compute (r jd jt : String) (c : KeywordCategory) :
    categoryResult (compute_ats_score r jd jt).keyword_analysis c =
      keyword_match_result r (extract_keywords jd c) := by
  cases c <;> rfl

/-- C3: with an empty job description every extraction is empty, so the
required category score of `compute_score(T, "", "")` is exactly `100.0`;
and in general each category's score is `100 × |matched| / |extracted|`
when the extracted keyword list is non-empty, and `100.0` otherwise. -/
theorem empty_requirements_score (T r jd jt : String) :
    (compute_ats_score T "" "").keyword_analysis.required.score = 100 ∧
    ∀ c : KeywordCategory,
      (categoryResult (compute_ats_score r jd jt).keyword_analysis c).score =
        if extract_keywords jd c = [] then 100
        else 100 * (((extract_keywords jd c).filter
            (fun k => strContains (lowerStr r) (lowerStr k))).length : ℚ) /
          ((extract_keywords jd c).length : ℚ) := by
  constructor
  · show (keyword_match_result T (extract_keywords "" KeywordCategory.required)).score = 100
    rw [show extract_keywords "" KeywordCategory.required = [] from by decide,
      keyword_match_result_score_eq]
    simp
  · intro c
    rw [categoryResult_compute, keyword_match_result_score_eq]

theorem exact_word_match_len {term skill : String} (h : _exact_word_match term skill = true) :
    1 < (lowerStr skill).length := by
  by_contra hle
  push_neg at hle
  have hle' : (lowerStr skill).length ≤ 1 := hle
  unfold _exact_word_match at h
  rw [if_pos hle'] at h
  exact Bool.false_ne_true h

/-- C4 fails as stated: the fallback strategy is a plain substring scan, so
extracting `preferred` keywords from "I work remotely as a developer" does
emit the single-letter taxonomy term "r" (it occurs inside "work",
"remotely" and "developer"). -/
theorem single_letter_fallback_cex :
    "r" ∈ extract_keywords_fallback "I work remotely as a developer"
      KeywordCategory.preferred := by
  decide

/-- C4 (amended): the single-character-rejection guard belongs to the
linguistic strategy only.  `_exact_word_match` rejects the taxonomy term
"r" for every candidate term, so the `preferred` filter stage of
`extract_keywords_spacy` never emits "r", whatever candidate pool the
linguistic pipeline produces; the fallback strategy, by contrast, does emit
"r" for the text above (see the counterexample). -/
theorem single_letter_spacy_rejected :
    (∀ term : String, _exact_word_match term "r" = false) ∧
    ∀ all_terms : List String, "r" ∉ spacy_preferred_filter all_terms := by
  constructor
  · intro term
    unfold _exact_word_match
    rw [if_pos (by decide : (lowerStr "r").length ≤ 1)]
  · intro ts
    unfold spacy_preferred_filter
    rw [List.mem_dedup]
    simp only [List.mem_flatten, List.mem_map, not_exists, not_and]
    rintro l ⟨term, hterm, rfl⟩ hmem
    rcases List.mem_append.mp hmem with h | h
    · rcases List.mem_filterMap.mp h with ⟨l', hl', hfm⟩
      rcases Option.map_eq_some'.mp hfm with ⟨skill, hfind, hlow⟩
      have hmatch := List.find?_some hfind
      have hlen := exact_word_match_len hmatch
      rw [hlow] at hlen
      exact absurd hlen (by decide)
    · rcases ho : soft_skills.find? (fun skill => _exact_word_match term skill) with _ | skill
      · rw [ho] at h
        simp at h
      · rw [ho] at h
        simp only [Option.map_some', Option.toList_some, List.mem_singleton] at h
        have hmatch := List.find?_some ho
        have hlen := exact_word_match_len hmatch
        rw [← h] at hlen
        exact absurd hlen (by decide)

/-- A direct transcription of C5's stated readability rule — the mean line
length over the NON-empty lines of the text — written only to compare the
claim against the source's actual behaviour. -/
def readabilityOverNonEmptyLines (t : String) : ℚ :=
  let ls := (splitLines t.data).filter (fun l => !l.isEmpty)
  let avg : ℚ := if ls.isEmpty then 0 else ((ls.map List.length).sum : ℚ) / (ls.length : ℚ)
  if 80 < avg then 60 else if 60 < avg then 80 else 100

theorem analyze_format_readability_eq (t : String) :
    (analyze_format t).readability_score =
      (if 80 < (((splitLines t.data).map List.length).sum : ℚ) / ((splitLines t.data).length : ℚ)
       then 60
       else if 60 < (((splitLines t.data).map List.length).sum : ℚ) /
          ((splitLines t.data).length : ℚ)
       then 80 else (100 : ℚ)) := by
  have hne : ¬((splitLines t.data).isEmpty = true) := by
    rw [List.isEmpty_iff]
    exact splitLines_ne_nil t.data
  show (if 80 < (if (splitLines t.data).isEmpty then (0 : ℚ)
          else (((splitLines t.data).map List.length).sum : ℚ) / ((splitLines t.data).length : ℚ))
        then (60 : ℚ)
        else if 60 < (if (splitLines t.data).isEmpty then (0 : ℚ)
          else (((splitLines t.data).map List.length).sum : ℚ) / ((splitLines t.data).length : ℚ))
        then 80 else 100) = _
  rw [if_neg hne]

/-- C5 fails as stated: for one 70-character line followed by two empty
lines, the mean over the non-empty lines is 70, so the claimed rule yields
80; but `analyze_format` averages over all three lines produced by
`split('\n')` (mean 70/3), yielding 100. -/
theorem readability_nonempty_lines_cex :
    (analyze_format (String.mk (List.replicate 70 'a' ++ ['\n', '\n']))).readability_score ≠
      readabilityOverNonEmptyLines (String.mk (List.replicate 70 'a' ++ ['\n', '\n'])) := by
  have hL : (analyze_format (String.mk (List.replicate 70 'a' ++ ['\n', '\n']))).readability_score
      = 100 := by
    rw [analyze_format_readability_eq,
      show ((splitLines (String.mk (List.replicate 70 'a' ++ ['\n', '\n'])).data).map
          List.length).sum = 70 from by decide,
      show (splitLines (String.mk (List.replicate 70 'a' ++ ['\n', '\n'])).data).length = 3
        from by decide]
    norm_num
  have hR : readabilityOverNonEmptyLines (String.mk (List.replicate 70 'a' ++ ['\n', '\n']))
      = 80 := by
    unfold readabilityOverNonEmptyLines
    rw [show (splitLines (String.mk (List.replicate 70 'a' ++ ['\n', '\n'])).data).filter
        (fun l => !l.isEmpty) = [List.replicate 70 'a'] from by decide]
    simp only [List.isEmpty_cons, List.map_cons, List.map_nil, List.sum_cons, List.sum_nil,
      List.length_cons, List.length_nil, List.length_replicate, Bool.false_eq_true, if_false]
    norm_num
  rw [hL, hR]
  norm_num

/-- C5 (amended): `readability_score` is determined by the mean line length
over ALL lines obtained by splitting the text on newline, empty lines
included (Python's `split('\n')` never returns an empty list, so the
source's `if lines else 0` guard is dead code): mean > 80 yields 60,
mean > 60 yields 80, otherwise 100. -/
theorem readability_all_lines (t : String) :
    (analyze_format t).readability_score =
      (if 80 < (((splitLines t.data).map List.length).sum : ℚ) / ((splitLines t.data).length : ℚ)
       then 60
       else if 60 < (((splitLines t.data).map List.length).sum : ℚ) /
          ((splitLines t.data).length : ℚ)
       then 80 else (100 : ℚ)) :=
  analyze_format_readability_eq t

theorem tfidf_weight_nonneg (A B : List String) (t : String) : 0 ≤ tfidf_weight A B t := by
  unfold tfidf_weight
  apply mul_nonneg (by positivity)
  have hd0 : (0 : ℝ) ≤ ((if t ∈ A then (1 : ℝ) else 0) + (if t ∈ B then (1 : ℝ) else 0)) := by
    split_ifs <;> norm_num
  have hd2 : ((if t ∈ A then (1 : ℝ) else 0) + (if t ∈ B then (1 : ℝ) else 0)) ≤ 2 := by
    split_ifs <;> norm_num
  have hlog : 0 ≤ Real.log
      (3 / (1 + ((if t ∈ A then (1 : ℝ) else 0) + (if t ∈ B then (1 : ℝ) else 0)))) := by
    apply Real.log_nonneg
    rw [le_div_iff₀ (by linarith)]
    linarith
  linarith

theorem tfidf_dot_nonneg (A B : List String) : 0 ≤ tfidf_dot A B :=
  Finset.sum_nonneg fun t _ => mul_nonneg (tfidf_weight_nonneg A B t) (tfidf_weight_nonneg B A t)

theorem tfidf_norm_nonneg (A B : List String) : 0 ≤ tfidf_norm A B :=
  Real.sqrt_nonneg _

theorem toFinset_append_comm (A B : List String) : (A ++ B).toFinset = (B ++ A).toFinset := by
  simp [List.toFinset_append, Finset.union_comm]

theorem tfidf_norm_swap_set (A B : List String) :
    tfidf_norm B A = Real.sqrt (∑ t ∈ (A ++ B).toFinset, (tfidf_weight B A t) ^ 2) := by
  unfold tfidf_norm
  rw [toFinset_append_comm B A]

theorem tfidf_dot_le (A B : List String) :
    tfidf_dot A B ≤ tfidf_norm A B * tfidf_norm B A := by
  rw [tfidf_norm_swap_set A B]
  unfold tfidf_dot tfidf_norm
  exact Real.sum_mul_le_sqrt_mul_sqrt _ _ _

theorem tfidf_cosine_bounds (A B : List String) :
    0 ≤ tfidf_cosine A B ∧ tfidf_cosine A B ≤ 1 := by
  unfold tfidf_cosine
  split_ifs with h
  · norm_num
  · push_neg at h
    have hA : 0 < tfidf_norm A B := lt_of_le_of_ne (tfidf_norm_nonneg A B) (Ne.symm h.1)
    have hB : 0 < tfidf_norm B A := lt_of_le_of_ne (tfidf_norm_nonneg B A) (Ne.symm h.2)
    constructor
    · exact div_nonneg (tfidf_dot_nonneg A B) (le_of_lt (mul_pos hA hB))
    · rw [div_le_one (mul_pos hA hB)]
      exact tfidf_dot_le A B

theorem tfidf_dot_comm (A B : List String) : tfidf_dot A B = tfidf_dot B A := by
  unfold tfidf_dot
  rw [toFinset_append_comm A B]
  exact Finset.sum_congr rfl fun t _ => mul_comm _ _

theorem tfidf_cosine_comm (A B : List String) : tfidf_cosine A B = tfidf_cosine B A := by
  unfold tfidf_cosine
  rw [tfidf_dot_comm]
  by_cases h1 : tfidf_norm A B = 0 <;> by_cases h2 : tfidf_norm B A = 0 <;>
    simp [h1, h2, mul_comm]

theorem jaccardSim_comm (a b : String) : jaccardSim a b = jaccardSim b a := by
  unfold jaccardSim
  by_cases h1 : jaccardWords a = ∅ <;> by_cases h2 : jaccardWords b = ∅ <;>
    simp [h1, h2, Finset.inter_comm, Finset.union_comm]

theorem jaccardSim_bounds (a b : String) : 0 ≤ jaccardSim a b ∧ jaccardSim a b ≤ 1 := by
  simp only [jaccardSim]
  split_ifs with h1 h2
  · norm_num
  · norm_num
  · constructor
    · positivity
    · have hu : (jaccardWords a ∪ jaccardWords b).Nonempty :=
        Finset.nonempty_iff_ne_empty.mpr h2
      have hupos : (0 : ℚ) < ((jaccardWords a ∪ jaccardWords b).card : ℚ) := by
        exact_mod_cast Finset.card_pos.mpr hu
      rw [div_le_one hupos]
      exact_mod_cast Finset.card_le_card Finset.inter_subset_union

theorem calculate_semantic_similarity_bounds (a b : String) :
    0 ≤ calculate_semantic_similarity a b ∧ calculate_semantic_similarity a b ≤ 1 := by
  unfold calculate_semantic_similarity
  split_ifs with h1 h2
  · norm_num
  · obtain ⟨hj0, hj1⟩ := jaccardSim_bounds a b
    constructor
    · exact_mod_cast hj0
    · exact_mod_cast hj1
  · exact tfidf_cosine_bounds _ _

theorem calculate_semantic_similarity_comm (a b : String) :
    calculate_semantic_similarity a b = calculate_semantic_similarity b a := by
  unfold calculate_semantic_similarity
  by_cases h1 : a = ""
  · by_cases h2 : b = "" <;> simp [h1, h2]
  · by_cases h2 : b = ""
    · simp [h1, h2]
    · simp only [h1, h2, or_self, if_false, false_or, or_false]
      by_cases h3 : docTerms a = [] <;> by_cases h4 : docTerms b = []
      · simp [h3, h4, jaccardSim_comm a b]
      · simp [h3, h4, tfidf_cosine_comm]
      · simp [h3, h4, tfidf_cosine_comm]
      · simp [h3, h4, tfidf_cosine_comm]

/-- C7: `calculate_semantic_similarity` always returns a value in `[0, 1]`,
and an empty first or second text short-circuits to exactly `0.0` (the
guard precedes any vectorization in the source). -/
theorem similarity_range_and_empty (a b : String) :
    0 ≤ calculate_semantic_similarity a b ∧ calculate_semantic_similarity a b ≤ 1 ∧
    calculate_semantic_similarity "" b = 0 ∧ calculate_semantic_similarity a "" = 0 := by
  refine ⟨(calculate_semantic_similarity_bounds a b).1,
    (calculate_semantic_similarity_bounds a b).2, ?_, ?_⟩
  · unfold calculate_semantic_similarity
    simp
  · unfold calculate_semantic_similarity
    simp

/-- C8: the similarity is exactly symmetric in this exact-arithmetic model —
on the TF-IDF cosine path because vocabulary, document frequencies and the
dot product are symmetric by construction, and on the Jaccard fallback path
because intersection and union are commutative — hence in particular the
two orders differ by less than `1e-6`. -/
theorem similarity_symmetric (a b : String) :
    calculate_semantic_similarity a b = calculate_semantic_similarity b a ∧
    |calculate_semantic_similarity a b - calculate_semantic_similarity b a| < 1 / 1000000 ∧
    jaccardSim a b = jaccardSim b a := by
  refine ⟨calculate_semantic_similarity_comm a b, ?_, jaccardSim_comm a b⟩
  rw [calculate_semantic_similarity_comm a b, sub_self, abs_zero]
  norm_num

/-- C9: whenever at least one critical, one important and one optional rule
fires, the flat suggestion list is exactly the critical items, then the
important items, then the optional items, with no interleaving, and the
tiered mapping returns the very same per-tier lists in the same order.
(The equation holds by construction of the source's
`suggestions = critical + important + optional`.) -/
theorem suggestions_ordering (rt jd : String) (ka : KeywordAnalysis)
    (sa : SemanticAnalysis) (fa : FormatAnalysis)
    (hc : (generate_suggestions rt jd ka sa fa).2.critical ≠ [])
    (hi : (generate_suggestions rt jd ka sa fa).2.important ≠ [])
    (ho : (generate_suggestions rt jd ka sa fa).2.optional ≠ []) :
    (generate_suggestions rt jd ka sa fa).1 =
      (generate_suggestions rt jd ka sa fa).2.critical ++
      (generate_suggestions rt jd ka sa fa).2.important ++
      (generate_suggestions rt jd ka sa fa).2.optional := rfl

theorem suggestions_ordering_witness :
    (generate_suggestions "" ""
        ⟨⟨[], ["python"], 0⟩, ⟨[], ["react"], 0⟩, ⟨[], [], 100⟩, ⟨[], ["leadership"], 100⟩⟩
        ⟨60, 100, 70, 100⟩ ⟨100, 100, 50, 100⟩).1 =
      (generate_suggestions "" ""
        ⟨⟨[], ["python"], 0⟩, ⟨[], ["react"], 0⟩, ⟨[], [], 100⟩, ⟨[], ["leadership"], 100⟩⟩
        ⟨60, 100, 70, 100⟩ ⟨100, 100, 50, 100⟩).2.critical ++
      (generate_suggestions "" ""
        ⟨⟨[], ["python"], 0⟩, ⟨[], ["react"], 0⟩, ⟨[], [], 100⟩, ⟨[], ["leadership"], 100⟩⟩
        ⟨60, 100, 70, 100⟩ ⟨100, 100, 50, 100⟩).2.important ++
      (generate_suggestions "" ""
        ⟨⟨[], ["python"], 0⟩, ⟨[], ["react"], 0⟩, ⟨[], [], 100⟩, ⟨[], ["leadership"], 100⟩⟩
        ⟨60, 100, 70, 100⟩ ⟨100, 100, 50, 100⟩).2.optional :=
  suggestions_ordering "" "" _ _ _
    (by norm_num [generate_suggestions]) (by norm_num [generate_suggestions])
    (by norm_num [generate_suggestions])

theorem compute_keyword_analysis (r jd jt : String) :
    (compute_ats_score r jd jt).keyword_analysis = keywordAnalysisOf r jd := rfl

/-- C1: `overall_score` is the rounding to one decimal place of
`0.35 × keyword_score + 0.25 × semantic_score + 0.20 × format_score +
0.20 × experience_score`, where the component scores are the unrounded
values and `keyword_score = 0.5 × required.score + 0.3 × preferred.score +
0.2 × industry.score`. -/
theorem overall_score_formula (r jd jt : String) :
    (compute_ats_score r jd jt).overall_score =
      round1 (0.35 * ((0.5 * (compute_ats_score r jd jt).keyword_analysis.required.score +
          0.3 * (compute_ats_score r jd jt).keyword_analysis.preferred.score +
          0.2 * (compute_ats_score r jd jt).keyword_analysis.industry.score : ℚ) : ℝ) +
        0.25 * semantic_score_raw r jd jt + 0.20 * (format_score_raw r : ℝ) +
        0.20 * experience_score_raw r jd) := by
  show round1 (overall_score_raw r jd jt) = _
  rw [compute_keyword_analysis]
  have h : overall_score_raw r jd jt =
      0.35 * ((0.5 * (keywordAnalysisOf r jd).required.score +
          0.3 * (keywordAnalysisOf r jd).preferred.score +
          0.2 * (keywordAnalysisOf r jd).industry.score : ℚ) : ℝ) +
        0.25 * semantic_score_raw r jd jt + 0.20 * (format_score_raw r : ℝ) +
        0.20 * experience_score_raw r jd := by
    unfold overall_score_raw keyword_score_raw
    push_cast
    ring
  rw [h]

theorem round1_bounds {α : Type} [LinearOrderedField α] [FloorRing α] {x : α}
    (h0 : 0 ≤ x) (h100 : x ≤ 100) : 0 ≤ round1 x ∧ round1 x ≤ 100 := by
  unfold round1
  constructor
  · apply div_nonneg _ (by norm_num)
    have h : (0 : ℤ) ≤ round (10 * x) := by
      rw [round_eq]
      apply Int.le_floor.mpr
      push_cast
      linarith
    exact_mod_cast h
  · rw [div_le_iff₀ (by norm_num : (0 : α) < 10)]
    have h : round (10 * x) ≤ (1000 : ℤ) := by
      rw [round_eq]
      apply Int.floor_le_iff.mpr
      push_cast
      linarith
    calc ((round (10 * x) : ℤ) : α) ≤ ((1000 : ℤ) : α) := by exact_mod_cast h
      _ = 100 * 10 := by norm_num

theorem analyze_format_structure_eq (r : String) :
    (analyze_format r).structure_score =
      20 * ((["experience", "education", "skills", "summary", "objective"] : List String).countP
        (fun s => strContains (lowerStr r) s) : ℚ) := rfl

theorem analyze_format_density_eq (r : String) :
    (analyze_format r).keyword_density =
      if 0 < (pySplitWS r).length then
        min 100 ((((technicalSkillLists.map (fun l =>
            l.countP (fun skill => strContains (lowerStr r) (lowerStr skill)))).sum : ℚ) /
          ((pySplitWS r).length : ℚ)) * 1000)
      else 0 := rfl

theorem analyze_format_completeness_eq (r : String) :
    (analyze_format r).section_completeness =
      ((if ["experience", "work", "employment"].any (fun w => strContains (lowerStr r) w)
          then 1 else 0) +
       (if ["education", "degree", "university", "college"].any
          (fun w => strContains (lowerStr r) w) then 1 else 0) +
       (if ["skills", "technologies", "tools"].any (fun w => strContains (lowerStr r) w)
          then 1 else 0) +
       (if hasEmail r then 1 else 0) : ℚ) * 25 := rfl

theorem analyze_format_bounds (r : String) :
    (0 ≤ (analyze_format r).structure_score ∧ (analyze_format r).structure_score ≤ 100) ∧
    (0 ≤ (analyze_format r).readability_score ∧ (analyze_format r).readability_score ≤ 100) ∧
    (0 ≤ (analyze_format r).keyword_density ∧ (analyze_format r).keyword_density ≤ 100) ∧
    (0 ≤ (analyze_format r).section_completeness ∧
      (analyze_format r).section_completeness ≤ 100) := by
  refine ⟨?_, ?_, ?_, ?_⟩
  · rw [analyze_format_structure_eq]
    have h : (["experience", "education", "skills", "summary", "objective"] : List String).countP
        (fun s => strContains (lowerStr r) s) ≤ 5 := by
      have h5 := List.countP_le_length (p := fun s => strContains (lowerStr r) s)
        (l := ["experience", "education", "skills", "summary", "objective"])
      simpa using h5
    have h' : ((["experience", "education", "skills", "summary", "objective"] :
        List String).countP (fun s => strContains (lowerStr r) s) : ℚ) ≤ 5 := by
      exact_mod_cast h
    constructor
    · positivity
    · linarith
  · rw [analyze_format_readability_eq]
    split_ifs <;> norm_num
  · rw [analyze_format_density_eq]
    split_ifs with h
    · constructor
      · apply le_min (by norm_num)
        apply mul_nonneg _ (by norm_num)
        apply div_nonneg _ (Nat.cast_nonneg _)
        apply List.sum_nonneg
        intro x hx
        rcases List.mem_map.mp hx with ⟨l, _, rfl⟩
        exact Nat.cast_nonneg _
      · exact min_le_left _ _
    · norm_num
  · rw [analyze_format_completeness_eq]
    split_ifs <;> norm_num

theorem semanticAnalysisOf_bounds (r jd jt : String) :
    (0 ≤ (semanticAnalysisOf r jd jt).job_title_match ∧
      (semanticAnalysisOf r jd jt).job_title_match ≤ 100) ∧
    (0 ≤ (semanticAnalysisOf r jd jt).industry_alignment ∧
      (semanticAnalysisOf r jd jt).industry_alignment ≤ 100) ∧
    (0 ≤ (semanticAnalysisOf r jd jt).experience_level ∧
      (semanticAnalysisOf r jd jt).experience_level ≤ 100) ∧
    (0 ≤ (semanticAnalysisOf r jd jt).responsibility_match ∧
      (semanticAnalysisOf r jd jt).responsibility_match ≤ 100) := by
  obtain ⟨h1, h2⟩ := calculate_semantic_similarity_bounds r jt
  obtain ⟨h3, h4⟩ := calculate_semantic_similarity_bounds r jd
  obtain ⟨h5, h6⟩ := keyword_match_result_score_bounds r
    (extract_keywords jd KeywordCategory.industry)
  obtain ⟨h7, h8⟩ := detect_experience_level_bounds r
  refine ⟨⟨?_, ?_⟩, ⟨?_, ?_⟩, ⟨?_, ?_⟩, ⟨?_, ?_⟩⟩
  · show 0 ≤ calculate_semantic_similarity r jt * 100
    linarith
  · show calculate_semantic_similarity r jt * 100 ≤ 100
    linarith
  · show (0 : ℝ) ≤
      ((keyword_match_result r (extract_keywords jd KeywordCategory.industry)).score : ℝ)
    exact_mod_cast h5
  · show ((keyword_match_result r (extract_keywords jd KeywordCategory.industry)).score : ℝ)
      ≤ 100
    exact_mod_cast h6
  · show (0 : ℝ) ≤ ((detect_experience_level r : ℚ) : ℝ)
    have h : (0 : ℚ) ≤ detect_experience_level r := le_trans (by norm_num) h7
    exact_mod_cast h
  · show ((detect_experience_level r : ℚ) : ℝ) ≤ 100
    exact_mod_cast h8
  · show 0 ≤ calculate_semantic_similarity r jd * 100
    linarith
  · show calculate_semantic_similarity r jd * 100 ≤ 100
    linarith

theorem experienceAnalysisOf_bounds (r jd : String) :
    (0 ≤ (experienceAnalysisOf r jd).years_of_experience ∧
      (experienceAnalysisOf r jd).years_of_experience ≤ 100) ∧
    (0 ≤ (experienceAnalysisOf r jd).relevant_experience ∧
      (experienceAnalysisOf r jd).relevant_experience ≤ 100) ∧
    (0 ≤ (experienceAnalysisOf r jd).project_match ∧
      (experienceAnalysisOf r jd).project_match ≤ 100) ∧
    (0 ≤ (experienceAnalysisOf r jd).achievement_alignment ∧
      (experienceAnalysisOf r jd).achievement_alignment ≤ 100) := by
  obtain ⟨h3, h4⟩ := calculate_semantic_similarity_bounds r jd
  obtain ⟨h7, h8⟩ := detect_experience_level_bounds r
  refine ⟨⟨?_, ?_⟩, ⟨?_, ?_⟩, ⟨?_, ?_⟩, ⟨?_, ?_⟩⟩
  · show (0 : ℝ) ≤ ((detect_experience_level r : ℚ) : ℝ)
    have h : (0 : ℚ) ≤ detect_experience_level r := le_trans (by norm_num) h7
    exact_mod_cast h
  · show ((detect_experience_level r : ℚ) : ℝ) ≤ 100
    exact_mod_cast h8
  · show 0 ≤ calculate_semantic_similarity r jd * 100
    linarith
  · show calculate_semantic_similarity r jd * 100 ≤ 100
    linarith
  · show 0 ≤ calculate_semantic_similarity r jd * 100
    linarith
  · show calculate_semantic_similarity r jd * 100 ≤ 100
    linarith
  · show 0 ≤ calculate_semantic_similarity r jd * 100
    linarith
  · show calculate_semantic_similarity r jd * 100 ≤ 100
    linarith

theorem keyword_score_raw_bounds (r jd : String) :
    0 ≤ keyword_score_raw r jd ∧ keyword_score_raw r jd ≤ 100 := by
  obtain ⟨h1, h2⟩ := keyword_match_result_score_bounds r
    (extract_keywords jd KeywordCategory.required)
  obtain ⟨h3, h4⟩ := keyword_match_result_score_bounds r
    (extract_keywords jd KeywordCategory.preferred)
  obtain ⟨h5, h6⟩ := keyword_match_result_score_bounds r
    (extract_keywords jd KeywordCategory.industry)
  constructor
  · show 0 ≤
      (keyword_match_result r (extract_keywords jd KeywordCategory.required)).score * 0.5 +
      (keyword_match_result r (extract_keywords jd KeywordCategory.preferred)).score * 0.3 +
      (keyword_match_result r (extract_keywords jd KeywordCategory.industry)).score * 0.2
    linarith
  · show
      (keyword_match_result r (extract_keywords jd KeywordCategory.required)).score * 0.5 +
      (keyword_match_result r (extract_keywords jd KeywordCategory.preferred)).score * 0.3 +
      (keyword_match_result r (extract_keywords jd KeywordCategory.industry)).score * 0.2 ≤ 100
    linarith

theorem semantic_score_raw_bounds (r jd jt : String) :
    0 ≤ semantic_score_raw r jd jt ∧ semantic_score_raw r jd jt ≤ 100 := by
  obtain ⟨⟨a1, a2⟩, ⟨b1, b2⟩, ⟨c1, c2⟩, ⟨d1, d2⟩⟩ := semanticAnalysisOf_bounds r jd jt
  constructor
  · show 0 ≤ (semanticAnalysisOf r jd jt).job_title_match * 0.3 +
      (semanticAnalysisOf r jd jt).industry_alignment * 0.3 +
      (semanticAnalysisOf r jd jt).experience_level * 0.2 +
      (semanticAnalysisOf r jd jt).responsibility_match * 0.2
    linarith
  · show (semanticAnalysisOf r jd jt).job_title_match * 0.3 +
      (semanticAnalysisOf r jd jt).industry_alignment * 0.3 +
      (semanticAnalysisOf r jd jt).experience_level * 0.2 +
      (semanticAnalysisOf r jd jt).responsibility_match * 0.2 ≤ 100
    linarith

theorem format_score_raw_bounds (r : String) :
    0 ≤ format_score_raw r ∧ format_score_raw r ≤ 100 := by
  obtain ⟨⟨a1, a2⟩, ⟨b1, b2⟩, ⟨c1, c2⟩, ⟨d1, d2⟩⟩ := analyze_format_bounds r
  constructor
  · show 0 ≤ (analyze_format r).structure_score * 0.3 +
      (analyze_format r).readability_score * 0.3 + (analyze_format r).keyword_density * 0.2 +
      (analyze_format r).section_completeness * 0.2
    linarith
  · show (analyze_format r).structure_score * 0.3 +
      (analyze_format r).readability_score * 0.3 + (analyze_format r).keyword_density * 0.2 +
      (analyze_format r).section_completeness * 0.2 ≤ 100
    linarith

theorem experience_score_raw_bounds (r jd : String) :
    0 ≤ experience_score_raw r jd ∧ experience_score_raw r jd ≤ 100 := by
  obtain ⟨⟨a1, a2⟩, ⟨b1, b2⟩, ⟨c1, c2⟩, ⟨d1, d2⟩⟩ := experienceAnalysisOf_bounds r jd
  constructor
  · show 0 ≤ (experienceAnalysisOf r jd).relevant_experience * 0.4 +
      (experienceAnalysisOf r jd).project_match * 0.3 +
      (experienceAnalysisOf r jd).achievement_alignment * 0.3
    linarith
  · show (experienceAnalysisOf r jd).relevant_experience * 0.4 +
      (experienceAnalysisOf r jd).project_match * 0.3 +
      (experienceAnalysisOf r jd).achievement_alignment * 0.3 ≤ 100
    linarith

theorem overall_score_raw_bounds (r jd jt : String) :
    0 ≤ overall_score_raw r jd jt ∧ overall_score_raw r jd jt ≤ 100 := by
  obtain ⟨hk1, hk2⟩ := keyword_score_raw_bounds r jd
  obtain ⟨hf1, hf2⟩ := format_score_raw_bounds r
  obtain ⟨hs1, hs2⟩ := semantic_score_raw_bounds r jd jt
  obtain ⟨he1, he2⟩ := experience_score_raw_bounds r jd
  have hk1' : (0 : ℝ) ≤ (keyword_score_raw r jd : ℝ) := by exact_mod_cast hk1
  have hk2' : (keyword_score_raw r jd : ℝ) ≤ 100 := by exact_mod_cast hk2
  have hf1' : (0 : ℝ) ≤ (format_score_raw r : ℝ) := by exact_mod_cast hf1
  have hf2' : (format_score_raw r : ℝ) ≤ 100 := by exact_mod_cast hf2
  unfold overall_score_raw
  constructor <;> linarith

theorem confidence_raw_eq (r jd : String) : confidence_raw r jd =
    min 100 ((r.length : ℚ) / 1000 * 30 + (jd.length : ℚ) / 1000 * 30 +
      (((keywordAnalysisOf r jd).required.matched.length : ℚ) +
        ((keywordAnalysisOf r jd).preferred.matched.length : ℚ)) * 2) := rfl

theorem confidence_raw_bounds (r jd : String) :
    0 ≤ confidence_raw r jd ∧ confidence_raw r jd ≤ 100 := by
  rw [confidence_raw_eq]
  constructor
  · apply le_min (by norm_num)
    have h1 : (0 : ℚ) ≤ (r.length : ℚ) := Nat.cast_nonneg _
    have h2 : (0 : ℚ) ≤ (jd.length : ℚ) := Nat.cast_nonneg _
    have h3 : (0 : ℚ) ≤ ((keywordAnalysisOf r jd).required.matched.length : ℚ) :=
      Nat.cast_nonneg _
    have h4 : (0 : ℚ) ≤ ((keywordAnalysisOf r jd).preferred.matched.length : ℚ) :=
      Nat.cast_nonneg _
    linarith
  · exact min_le_left _ _

/-- C2: every numeric field of the result of `compute_ats_score` — the five
top-level scores, all sixteen fields of the four analysis records, and the
confidence — lies in the closed interval `[0, 100]`, for arbitrary inputs
(including empty and non-ASCII strings, over which the theorem quantifies). -/
theorem score_result_bounds (r jd jt : String) :
    (0 ≤ (compute_ats_score r jd jt).overall_score ∧
      (compute_ats_score r jd jt).overall_score ≤ 100) ∧
    (0 ≤ (compute_ats_score r jd jt).keyword_score ∧
      (compute_ats_score r jd jt).keyword_score ≤ 100) ∧
    (0 ≤ (compute_ats_score r jd jt).semantic_score ∧
      (compute_ats_score r jd jt).semantic_score ≤ 100) ∧
    (0 ≤ (compute_ats_score r jd jt).format_score ∧
      (compute_ats_score r jd jt).format_score ≤ 100) ∧
    (0 ≤ (compute_ats_score r jd jt).experience_score ∧
      (compute_ats_score r jd jt).experience_score ≤ 100) ∧
    (∀ c : KeywordCategory,
      0 ≤ (categoryResult (compute_ats_score r jd jt).keyword_analysis c).score ∧
      (categoryResult (compute_ats_score r jd jt).keyword_analysis c).score ≤ 100) ∧
    (0 ≤ (compute_ats_score r jd jt).semantic_analysis.job_title_match ∧
      (compute_ats_score r jd jt).semantic_analysis.job_title_match ≤ 100) ∧
    (0 ≤ (compute_ats_score r jd jt).semantic_analysis.industry_alignment ∧
      (compute_ats_score r jd jt).semantic_analysis.industry_alignment ≤ 100) ∧
    (0 ≤ (compute_ats_score r jd jt).semantic_analysis.experience_level ∧
      (compute_ats_score r jd jt).semantic_analysis.experience_level ≤ 100) ∧
    (0 ≤ (compute_ats_score r jd jt).semantic_analysis.responsibility_match ∧
      (compute_ats_score r jd jt).semantic_analysis.responsibility_match ≤ 100) ∧
    (0 ≤ (compute_ats_score r jd jt).format_analysis.structure_score ∧
      (compute_ats_score r jd jt).format_analysis.structure_score ≤ 100) ∧
    (0 ≤ (compute_ats_score r jd jt).format_analysis.readability_score ∧
      (compute_ats_score r jd jt).format_analysis.readability_score ≤ 100) ∧
    (0 ≤ (compute_ats_score r jd jt).format_analysis.keyword_density ∧
      (compute_ats_score r jd jt).format_analysis.keyword_density ≤ 100) ∧
    (0 ≤ (compute_ats_score r jd jt).format_analysis.section_completeness ∧
      (compute_ats_score r jd jt).format_analysis.section_completeness ≤ 100) ∧
    (0 ≤ (compute_ats_score r jd jt).experience_analysis.years_of_experience ∧
      (compute_ats_score r jd jt).experience_analysis.years_of_experience ≤ 100) ∧
    (0 ≤ (compute_ats_score r jd jt).experience_analysis.relevant_experience ∧
      (compute_ats_score r jd jt).experience_analysis.relevant_experience ≤ 100) ∧
    (0 ≤ (compute_ats_score r jd jt).experience_analysis.project_match ∧
      (compute_ats_score r jd jt).experience_analysis.project_match ≤ 100) ∧
    (0 ≤ (compute_ats_score r jd jt).experience_analysis.achievement_alignment ∧
      (compute_ats_score r jd jt).experience_analysis.achievement_alignment ≤ 100) ∧
    (0 ≤ (compute_ats_score r jd jt).confidence ∧
      (compute_ats_score r jd jt).confidence ≤ 100) := by
  obtain ⟨ho1, ho2⟩ := overall_score_raw_bounds r jd jt
  obtain ⟨hk1, hk2⟩ := keyword_score_raw_bounds r jd
  obtain ⟨hs1, hs2⟩ := semantic_score_raw_bounds r jd jt
  obtain ⟨hf1, hf2⟩ := format_score_raw_bounds r
  obtain ⟨he1, he2⟩ := experience_score_raw_bounds r jd
  obtain ⟨hc1, hc2⟩ := confidence_raw_bounds r jd
  refine ⟨round1_bounds ho1 ho2, round1_bounds hk1 hk2, round1_bounds hs1 hs2,
    round1_bounds hf1 hf2, round1_bounds he1 he2, ?_,
    (semanticAnalysisOf_bounds r jd jt).1, (semanticAnalysisOf_bounds r jd jt).2.1,
    (semanticAnalysisOf_bounds r jd jt).2.2.1, (semanticAnalysisOf_bounds r jd jt).2.2.2,
    (analyze_format_bounds r).1, (analyze_format_bounds r).2.1,
    (analyze_format_bounds r).2.2.1, (analyze_format_bounds r).2.2.2,
    (experienceAnalysisOf_bounds r jd).1, (experienceAnalysisOf_bounds r jd).2.1,
    (experienceAnalysisOf_bounds r jd).2.2.1, (experienceAnalysisOf_bounds r jd).2.2.2,
    round1_bounds hc1 hc2⟩
  intro c
  rw [categoryResult_compute]
  exact keyword_match_result_score_bounds r (extract_keywords jd c)
